import Mathlib

/-!
Verification of the CRM backend's segment rule engine, lookalike synthesizer,
segment manager and campaign executor against their natural-language
specification.  Each section shallowly embeds one source module; theorems at
the end settle the spec's claims against these embeddings.
-/

set_option maxHeartbeats 1000000

namespace Crm

/-! ## Section 1: customer service — `findCustomersBySegment` (src/unnamed/part_006)

The service builds a Supabase query by folding over `rules.conditions` and
switching on `condition.operator`; the accumulated filters are conjoined by
the store (PostgREST conjoins all top-level filters).  We embed the query as
the list of emitted filters and the store's evaluation as "customer passes
every filter". -/

/-- A JSON scalar/array value as carried by a rule condition or a customer
column.  A two-element numeric array (the shape `between` expects) is
represented by `pair`; a string array (the `tags` column) by `strList`. -/
inductive JValue where
  | num (q : ℚ)
  | str (s : String)
  | strList (l : List String)
  | pair (lo hi : ℚ)
  | null
deriving DecidableEq, Repr

/-- A customer row as selected by `findCustomersBySegment` (the fields the
rule engine can filter on). -/
structure SegCustomer where
  id : ℕ
  email : String
  first_name : String
  last_name : String
  total_spend : ℚ
  total_visits : ℕ
  tags : List String
deriving DecidableEq, Repr

/-- A condition object as read by part_006 (`condition.operator`,
`condition.field`, `condition.value`). -/
structure SegCondition where
  field : String
  operator : String
  value : JValue
deriving DecidableEq, Repr

/-- The rules object: part_006 reads only `rules.conditions` (it ignores the
group operator — all conditions are applied with AND logic, per the source's
own TODO comment). -/
structure SegRules where
  operator : String
  conditions : List SegCondition
deriving DecidableEq, Repr

/-- One Supabase filter emitted by the query-building switch.  `ilike`
patterns `%v%`, `v%`, `%v` are represented structurally. -/
inductive SegFilter where
  | eq (field : String) (value : JValue)
  | neq (field : String) (value : JValue)
  | gt (field : String) (value : JValue)
  | lt (field : String) (value : JValue)
  | gte (field : String) (value : JValue)
  | lte (field : String) (value : JValue)
  | containsTags (value : JValue)
  | ilikeContains (field : String) (value : JValue)
  | ilikeStarts (field : String) (value : JValue)
  | ilikeEnds (field : String) (value : JValue)
  | notIlikeContains (field : String) (value : JValue)
deriving DecidableEq, Repr

/-- Look up a customer column by name, as the store would. -/
def fieldValue (c : SegCustomer) (f : String) : JValue :=
  match f with
  | "id" => .num c.id
  | "email" => .str c.email
  | "first_name" => .str c.first_name
  | "last_name" => .str c.last_name
  | "total_spend" => .num c.total_spend
  | "total_visits" => .num c.total_visits
  | "tags" => .strList c.tags
  | _ => .null

/-- Numeric/text ordering used by the store's comparison filters; comparisons
between mismatched types do not hold. -/
def jvalLt : JValue → JValue → Bool
  | .num a, .num b => a < b
  | .str a, .str b => a < b
  | _, _ => false

def jvalLe : JValue → JValue → Bool
  | .num a, .num b => a ≤ b
  | .str a, .str b => a ≤ b
  | _, _ => false

/-- Case-insensitive substring test (semantics of `ilike '%v%'`). -/
def icontains (hay needle : String) : Bool :=
  ((hay.toLower).splitOn (needle.toLower)).length > 1

/-- Evaluate one filter against a customer row (the store's semantics). -/
def evalFilter (c : SegCustomer) : SegFilter → Bool
  | .eq f v => decide (fieldValue c f = v)
  | .neq f v => !decide (fieldValue c f = v)
  | .gt f v => jvalLt v (fieldValue c f)
  | .lt f v => jvalLt (fieldValue c f) v
  | .gte f v => jvalLe v (fieldValue c f)
  | .lte f v => jvalLe (fieldValue c f) v
  | .containsTags v => match v with
    | .str s => c.tags.contains s
    | _ => false
  | .ilikeContains f v => match fieldValue c f, v with
    | .str h, .str n => icontains h n
    | _, _ => false
  | .ilikeStarts f v => match fieldValue c f, v with
    | .str h, .str n => (h.toLower).startsWith (n.toLower)
    | _, _ => false
  | .ilikeEnds f v => match fieldValue c f, v with
    | .str h, .str n => (h.toLower).endsWith (n.toLower)
    | _, _ => false
  -- the source calls `query.not('ilike', field, pattern)` with the column and
  -- operator arguments transposed; the resulting filter is ill-formed and no
  -- claim exercises it, so it is modelled as a pass-through.
  | .notIlikeContains _ _ => true

/-- The `switch (condition.operator)` of part_006: append the filters a
condition contributes to the query; unknown operators fall through the
`default:` branch, which only logs a warning and leaves the query unchanged. -/
def applyCondition (query : List SegFilter) (condition : SegCondition) : List SegFilter :=
  match condition.operator with
  | "=" | "equals" => query ++ [.eq condition.field condition.value]
  | "!=" | "notEquals" => query ++ [.neq condition.field condition.value]
  | ">" | "greaterThan" => query ++ [.gt condition.field condition.value]
  | "<" | "lessThan" => query ++ [.lt condition.field condition.value]
  | ">=" | "greaterThanOrEqual" => query ++ [.gte condition.field condition.value]
  | "<=" | "lessThanOrEqual" => query ++ [.lte condition.field condition.value]
  | "contains" =>
    if condition.field = "tags" then query ++ [.containsTags condition.value]
    else query ++ [.ilikeContains condition.field condition.value]
  | "not_contains" =>
    if condition.field = "tags" then query  -- "not implemented yet": skipped
    else query ++ [.notIlikeContains condition.field condition.value]
  | "starts_with" => query ++ [.ilikeStarts condition.field condition.value]
  | "ends_with" => query ++ [.ilikeEnds condition.field condition.value]
  | "between" =>
    match condition.value with
    | .pair lo hi => query ++ [.gte condition.field (.num lo), .lte condition.field (.num hi)]
    | _ => query
  | _ => query  -- default: console.warn(`Unsupported operator`), no filter

/-- The store conjoins every accumulated top-level filter. -/
def matchesQuery (query : List SegFilter) (c : SegCustomer) : Bool :=
  query.all (evalFilter c)

/-- `findCustomersBySegment` of part_006, evaluated against the customer
table `customers`.  With a rules object present, the conditions are folded
into the query and the store returns the rows passing all filters; with no
rules object (`rules && rules.conditions` falsy) every customer is returned.
The only `throw` in the source is on a store/infrastructure error, which is
outside this model. -/
def findCustomersBySegment (rules : Option SegRules) (customers : List SegCustomer) :
    List SegCustomer :=
  match rules with
  | some r => customers.filter (matchesQuery (r.conditions.foldl applyCondition []))
  | none => customers

/-- The operator strings the switch implements; every other string reaches
the `default:` branch. -/
def implementedOperators : List String :=
  ["=", "equals", "!=", "notEquals", ">", "greaterThan", "<", "lessThan",
   ">=", "greaterThanOrEqual", "<=", "lessThanOrEqual", "contains",
   "not_contains", "starts_with", "ends_with", "between"]

/-- A condition whose operator string is not implemented contributes no
filter: the `default:` branch of the switch leaves the query unchanged. -/
theorem applyCondition_unsupported (q : List SegFilter) (c : SegCondition)
    (h : c.operator ∉ implementedOperators) : applyCondition q c = q := by
  unfold applyCondition
  split <;> simp_all [implementedOperators]

/-- Customer used by the concrete counterexamples: the spec's scenario
customer (total_spend 15000, total_visits 2, tags ["vip"]). -/
def vipCustomer : SegCustomer :=
  { id := 1, email := "a@x.com", first_name := "A", last_name := "B",
    total_spend := 15000, total_visits := 2, tags := ["vip"] }

/-- A second customer matching no interesting condition. -/
def plainCustomer : SegCustomer :=
  { id := 2, email := "b@y.com", first_name := "C", last_name := "D",
    total_spend := 10, total_visits := 0, tags := [] }

/-- C1 (counterexample): a rule whose only condition carries the unknown
operation "fuzzyMatch" does NOT make `findCustomersBySegment` fail; it
returns the full (widened) customer set, contradicting the claimed
`UnsupportedOperatorError`. -/
theorem findCustomersBySegment_fuzzyMatch_returns_all :
    findCustomersBySegment
      (some ⟨"AND", [⟨"tags", "fuzzyMatch", .str "vip"⟩]⟩)
      [vipCustomer, plainCustomer] = [vipCustomer, plainCustomer] := by
  decide

/-- C1 (amended): a condition with an unimplemented operation is silently
skipped — audience resolution succeeds and returns exactly the result of the
same rules with that condition removed (so the result set is widened relative
to enforcing the condition, never an error). -/
theorem findCustomersBySegment_skips_unsupported_operator
    (r : SegRules) (customers : List SegCustomer) (c : SegCondition)
    (pre post : List SegCondition)
    (hsplit : r.conditions = pre ++ c :: post)
    (hop : c.operator ∉ implementedOperators) :
    findCustomersBySegment (some r) customers =
      findCustomersBySegment (some ⟨r.operator, pre ++ post⟩) customers := by
  have hfold : (pre ++ c :: post).foldl applyCondition [] =
      (pre ++ post).foldl applyCondition [] := by
    rw [List.foldl_append, List.foldl_append, List.foldl_cons,
      applyCondition_unsupported _ _ hop]
  simp only [findCustomersBySegment, hsplit, hfold]

/-- C1 (witness): instantiation of the skip theorem on the fuzzyMatch rule. -/
theorem findCustomersBySegment_skips_unsupported_operator_witness :
    findCustomersBySegment
      (some ⟨"AND", [⟨"total_spend", "greaterThan", .num 100⟩,
                     ⟨"tags", "fuzzyMatch", .str "vip"⟩]⟩)
      [vipCustomer, plainCustomer] =
    findCustomersBySegment
      (some ⟨"AND", [⟨"total_spend", "greaterThan", .num 100⟩]⟩)
      [vipCustomer, plainCustomer] := by
  have h := findCustomersBySegment_skips_unsupported_operator
    ⟨"AND", [⟨"total_spend", "greaterThan", .num 100⟩,
             ⟨"tags", "fuzzyMatch", .str "vip"⟩]⟩
    [vipCustomer, plainCustomer]
    ⟨"tags", "fuzzyMatch", .str "vip"⟩
    [⟨"total_spend", "greaterThan", .num 100⟩] []
    rfl (by decide)
  simpa using h

/-- C2 (counterexample): a Group with an empty conditions list matches EVERY
customer (for AND and for OR alike), not the empty set the claim demands. -/
theorem findCustomersBySegment_empty_conditions_not_empty_result :
    findCustomersBySegment (some ⟨"AND", []⟩) [vipCustomer] ≠ [] ∧
    findCustomersBySegment (some ⟨"OR", []⟩) [vipCustomer] ≠ [] := by
  decide

/-- C2 (amended): for every group operator and every customer table, a rule
whose conditions list is empty resolves to the ENTIRE customer set — the
condition loop emits no filter, so the unfiltered query returns every row. -/
theorem findCustomersBySegment_empty_conditions_matches_all
    (op : String) (customers : List SegCustomer) :
    findCustomersBySegment (some ⟨op, []⟩) customers = customers := by
  simp [findCustomersBySegment, matchesQuery]

/-- C3: the spec's OR scenario evaluated on the code: rule
`OR [total_visits equals 0, tags contains "vip"]` against the customer
`{total_visits: 2, tags: ["vip"]}` returns NO customers — part_006 conjoins
the two conditions (its TODO admits AND-only logic), so a customer satisfying
only the second OR'd condition does not match, contrary to the claim. -/
theorem findCustomersBySegment_or_scenario_no_match :
    findCustomersBySegment
      (some ⟨"OR", [⟨"total_visits", "equals", .num 0⟩,
                    ⟨"tags", "contains", .str "vip"⟩]⟩)
      [vipCustomer] = [] := by
  decide

/-! ## Section 2: segment service — `createSegment` (src/unnamed/part_004)

The service inserts the segment row with `audience_size: 0`, then inside a
try/catch computes the audience size and updates the row; a failure of the
count (or the whole try block) is only logged and the inserted row is
returned unchanged.  Database responses are supplied by an environment. -/

/-- Input to `createSegment` (the request body fields the service copies). -/
structure SegmentInput where
  name : String
  description : Option String
  rules : Option SegRules
  is_dynamic : Option Bool
  tags : Option (List String)
deriving Repr

/-- A persisted segment row. -/
structure SegmentRow where
  id : ℕ
  name : String
  description : Option String
  rules : Option SegRules
  is_dynamic : Bool
  tags : List String
  created_by : ℕ
  audience_size : ℕ
  last_calculated_at : Option String
deriving Repr, DecidableEq

/-- Database/collaborator responses for one `createSegment` call. -/
structure SegDbEnv where
  /-- error returned by the insert, if any -/
  insertError : Option String
  /-- id assigned to the inserted row by the store -/
  newId : ℕ
  /-- result of `countCustomersBySegment` (it throws on a store error) -/
  countResult : Except String ℕ
  /-- row returned by `updateSegment` (it returns null on error) -/
  updateResult : SegmentRow → Option SegmentRow
  /-- current timestamp string -/
  now : String

/-- The row built at the top of `createSegment` and handed to the insert:
`audience_size` is hard-coded to 0 and `last_calculated_at` to null. -/
def builtSegmentRow (env : SegDbEnv) (segmentData : SegmentInput) (userId : ℕ) : SegmentRow :=
  { id := env.newId
    name := segmentData.name
    description := segmentData.description
    rules := segmentData.rules
    is_dynamic := segmentData.is_dynamic.getD true
    tags := segmentData.tags.getD []
    created_by := userId
    audience_size := 0
    last_calculated_at := none }

/-- `createSegment` of part_004: insert (throwing "Failed to create segment"
on error), then try to count the audience and persist the size; on a count
failure the catch logs and returns the inserted row as-is.  When the update
returns null the code falls back to `{ ...data, audience_size }` (note: that
fallback does not set `last_calculated_at`, mirroring the source). -/
def createSegment (env : SegDbEnv) (segmentData : SegmentInput) (userId : ℕ) :
    Except String SegmentRow :=
  let segment := builtSegmentRow env segmentData userId
  match env.insertError with
  | some _ => .error "Failed to create segment"
  | none =>
    let data := segment
    match env.countResult with
    | .error _ => .ok data
    | .ok audienceSize =>
      match env.updateResult { data with audience_size := audienceSize,
                                         last_calculated_at := some env.now } with
      | some updatedSegment => .ok updatedSegment
      | none => .ok { data with audience_size := audienceSize }

/-- C8: if persisting the segment succeeds but counting the audience throws,
`createSegment` still returns the persisted row, whose `audience_size` is its
default 0 — the count failure never fails segment creation. -/
theorem createSegment_survives_count_failure
    (env : SegDbEnv) (segmentData : SegmentInput) (userId : ℕ) (e : String)
    (hins : env.insertError = none)
    (hcount : env.countResult = .error e) :
    createSegment env segmentData userId =
      .ok (builtSegmentRow env segmentData userId) ∧
    (builtSegmentRow env segmentData userId).audience_size = 0 := by
  constructor
  · simp only [createSegment, hins, hcount]
  · rfl

/-- C8 (witness): a concrete environment whose insert succeeds and whose
count throws; creation returns the inserted row with audience_size 0. -/
theorem createSegment_survives_count_failure_witness :
    createSegment
      { insertError := none, newId := 7, countResult := .error "boom",
        updateResult := fun _ => none, now := "t0" }
      { name := "s", description := none, rules := none,
        is_dynamic := none, tags := none } 3 =
      .ok { id := 7, name := "s", description := none, rules := none,
            is_dynamic := true, tags := [], created_by := 3,
            audience_size := 0, last_calculated_at := none } := by
  exact (createSegment_survives_count_failure
    { insertError := none, newId := 7, countResult := .error "boom",
      updateResult := fun _ => none, now := "t0" }
    { name := "s", description := none, rules := none,
      is_dynamic := none, tags := none } 3 "boom" rfl rfl).1

/-! ## Section 3: campaign service — `executeCampaign` delivery loop
(src/unnamed/part_005, lines 474-563)

After resolving the audience, the loop processes each customer inside a
per-item try/catch: a successful send increments `sentCount`, an unsuccessful
send or a thrown error increments `failedCount`, and in both arms a
communication-log row is written; afterwards the campaign row is updated to
COMPLETED with the final counters.  A delivery attempt (personalize + send)
is an external collaborator, modelled as a function returning either a send
result or a thrown error; log inserts are infrastructure and assumed to
succeed. -/

/-- Result object of `emailService.sendEmail`. -/
structure EmailSendResult where
  success : Bool
  status : String
  error : Option String
  messageId : Option String
deriving Repr, DecidableEq

/-- A communication_logs row as written by the loop. -/
structure CommLog where
  customer_id : ℕ
  status : String
  error_message : Option String
deriving Repr, DecidableEq

/-- The final `updateCampaign` payload. -/
structure CampaignUpdate where
  status : String
  sent_count : ℕ
  failed_count : ℕ
  audience_size : Option ℕ
deriving Repr, DecidableEq

/-- One iteration of the `for (const customer of customers)` loop: the try
arm on a returned send result, the catch arm on a thrown error; both append
a log row and continue with the next customer. -/
def deliveryStep (deliver : SegCustomer → Except String EmailSendResult)
    (acc : ℕ × ℕ × List CommLog) (customer : SegCustomer) : ℕ × ℕ × List CommLog :=
  match deliver customer with
  | .ok emailResult =>
    (if emailResult.success then acc.1 + 1 else acc.1,
     if emailResult.success then acc.2.1 else acc.2.1 + 1,
     acc.2.2 ++ [⟨customer.id, emailResult.status, emailResult.error⟩])
  | .error e =>
    (acc.1, acc.2.1 + 1, acc.2.2 ++ [⟨customer.id, "FAILED", some e⟩])

/-- The delivery phase of `executeCampaign`: the zero-audience early return
(which updates COMPLETED with zero counters and no audience_size), or the
loop followed by the final COMPLETED update carrying the counters. -/
def executeCampaignDeliveries (deliver : SegCustomer → Except String EmailSendResult)
    (customers : List SegCustomer) : CampaignUpdate × List CommLog :=
  if customers.length = 0 then
    ({ status := "COMPLETED", sent_count := 0, failed_count := 0,
       audience_size := none }, [])
  else
    let r := customers.foldl (deliveryStep deliver) (0, 0, [])
    ({ status := "COMPLETED", sent_count := r.1, failed_count := r.2.1,
       audience_size := some customers.length }, r.2.2)

/-- The log row one customer's iteration writes. -/
def logFor (deliver : SegCustomer → Except String EmailSendResult)
    (customer : SegCustomer) : CommLog :=
  match deliver customer with
  | .ok emailResult => ⟨customer.id, emailResult.status, emailResult.error⟩
  | .error e => ⟨customer.id, "FAILED", some e⟩

/-- Whether a customer's delivery attempt counts as sent. -/
def isDeliveredOk (deliver : SegCustomer → Except String EmailSendResult)
    (customer : SegCustomer) : Bool :=
  match deliver customer with
  | .ok emailResult => emailResult.success
  | .error _ => false

/-- Closed form of the delivery fold: counters count the send outcomes and
the log gets exactly one row per customer, in order. -/
theorem foldl_deliveryStep (deliver : SegCustomer → Except String EmailSendResult)
    (customers : List SegCustomer) (s f : ℕ) (ls : List CommLog) :
    customers.foldl (deliveryStep deliver) (s, f, ls) =
      (s + customers.countP (isDeliveredOk deliver),
       f + customers.countP (fun c => !isDeliveredOk deliver c),
       ls ++ customers.map (logFor deliver)) := by
  induction customers generalizing s f ls with
  | nil => simp
  | cons c cs ih =>
    cases h : deliver c with
    | ok r =>
      cases hr : r.success <;>
        simp [List.foldl_cons, deliveryStep, h, ih, List.countP_cons,
          isDeliveredOk, logFor, hr] <;> omega
    | error e =>
      simp [List.foldl_cons, deliveryStep, h, ih, List.countP_cons,
        isDeliveredOk, logFor]
      omega

/-- C9: a delivery attempt that throws at position `i` does not abort the
run: every customer (in particular every one after `i`) still gets its log
row written in order, the throw is counted in `failed_count` (the counter
equals the number of non-successful outcomes and is at least 1), and the
final campaign update to COMPLETED still happens. -/
theorem executeCampaign_isolates_delivery_failures
    (deliver : SegCustomer → Except String EmailSendResult)
    (customers : List SegCustomer) (i : ℕ) (e : String)
    (hi : i < customers.length)
    (hthrow : deliver customers[i] = .error e) :
    (executeCampaignDeliveries deliver customers).2 =
      customers.map (logFor deliver) ∧
    (executeCampaignDeliveries deliver customers).1.failed_count =
      customers.countP (fun c => !isDeliveredOk deliver c) ∧
    1 ≤ (executeCampaignDeliveries deliver customers).1.failed_count ∧
    (executeCampaignDeliveries deliver customers).1.status = "COMPLETED" := by
  have hne : customers.length ≠ 0 := by omega
  have hcount : 0 < customers.countP (fun c => !isDeliveredOk deliver c) := by
    rw [List.countP_pos_iff]
    refine ⟨customers[i], List.getElem_mem hi, ?_⟩
    simp [isDeliveredOk, hthrow]
  refine ⟨?_, ?_, ?_, ?_⟩ <;>
    simp only [executeCampaignDeliveries, hne, if_false,
      foldl_deliveryStep, Nat.zero_add, List.nil_append]
  exact hcount

/-- Delivery oracle for the C9 witness: throws for customer id 1, succeeds
otherwise. -/
def deliverW : SegCustomer → Except String EmailSendResult :=
  fun c => if c.id = 1 then .error "boom"
           else .ok { success := true, status := "SENT", error := none, messageId := none }

/-- C9 (witness): concrete two-customer run where the first delivery throws;
the second customer is still processed and the campaign completes. -/
theorem executeCampaign_isolates_delivery_failures_witness :
    (executeCampaignDeliveries deliverW [vipCustomer, plainCustomer]).2 =
      [vipCustomer, plainCustomer].map (logFor deliverW) ∧
    (executeCampaignDeliveries deliverW [vipCustomer, plainCustomer]).1.failed_count =
      [vipCustomer, plainCustomer].countP (fun c => !isDeliveredOk deliverW c) ∧
    1 ≤ (executeCampaignDeliveries deliverW [vipCustomer, plainCustomer]).1.failed_count ∧
    (executeCampaignDeliveries deliverW [vipCustomer, plainCustomer]).1.status = "COMPLETED" :=
  executeCampaign_isolates_delivery_failures deliverW [vipCustomer, plainCustomer]
    0 "boom" (by decide) (by rfl)

/-! ## Section 4: AI service — lookalike audience synthesis
(src/src/services/ai.service.clean.js)

`LookalikeAnalyzer.analyzeCustomerPatterns` computes nearest-rank percentile
thresholds over the reference population and tabulates tier/tag/domain
counts; `generateLookalikeRules` synthesizes an OR rule from the analysis;
`generateLookalikeAudience` assembles a reference population from the
database and wraps everything in a try/catch whose catch arm returns a fixed
fallback rule with confidence 30.  JavaScript objects used as counters
(`commonTags` etc.) are modelled as association lists preserving first-insertion
key order, matching `Object.entries` enumeration order. -/

/-- A customer row as consumed by the lookalike analyzer; fields that can be
null/absent in the row are `Option`s, `created_at` is a millisecond
timestamp. -/
structure AiCustomer where
  email : Option String
  address : Option String
  total_spend : Option ℚ
  total_visits : Option ℕ
  tags : Option (List String)
  created_at : ℚ
deriving DecidableEq, Repr

/-- Spend-tier counters (split at the 50th/75th/90th spend percentiles). -/
structure SpendingTiers where
  low : ℕ
  medium : ℕ
  high : ℕ
  premium : ℕ
deriving DecidableEq, Repr

/-- Visit-frequency counters (split at the 25th/75th visit percentiles). -/
structure VisitFrequency where
  occasional : ℕ
  regular : ℕ
  frequent : ℕ
deriving DecidableEq, Repr

/-- Tenure counters (≤30 days, ≤365 days, older). -/
structure TenureBuckets where
  new : ℕ
  established : ℕ
  longtime : ℕ
deriving DecidableEq, Repr

/-- The percentile thresholds attached to the analysis. -/
structure Thresholds where
  spendP25 : ℚ
  spendP50 : ℚ
  spendP75 : ℚ
  spendP90 : ℚ
  visitP25 : ℕ
  visitP75 : ℕ
deriving DecidableEq, Repr

/-- The counters mutated by the per-customer forEach. -/
structure PatternCounters where
  spendingTiers : SpendingTiers
  visitFrequency : VisitFrequency
  tenure : TenureBuckets
  commonTags : List (String × ℕ)
  emailDomains : List (String × ℕ)
  locationPatterns : List (String × ℕ)
deriving DecidableEq, Repr

/-- The full analysis returned by `analyzeCustomerPatterns`. -/
structure PatternAnalysis where
  spendingTiers : SpendingTiers
  visitFrequency : VisitFrequency
  tenure : TenureBuckets
  commonTags : List (String × ℕ)
  emailDomains : List (String × ℕ)
  locationPatterns : List (String × ℕ)
  thresholds : Thresholds
  totalCustomers : ℕ
deriving DecidableEq, Repr

/-- `analysis.m[k] = (analysis.m[k] || 0) + 1` on a JS object: bump the count
of `k`, appending the key on first sight (JS objects enumerate keys in
insertion order). -/
def bump (m : List (String × ℕ)) (k : String) : List (String × ℕ) :=
  if m.any (fun kv => kv.1 = k) then
    m.map (fun kv => if kv.1 = k then (kv.1, kv.2 + 1) else kv)
  else m ++ [(k, 1)]

/-- `email.split('@')[1]`, with the subsequent `if (domain)` truthiness test:
no `@` or an empty domain yields nothing. -/
def emailDomain (email : String) : Option String :=
  match (email.splitOn "@")[1]? with
  | some domain => if domain = "" then none else some domain
  | none => none

/-- The source's `getPercentile`: nearest-rank index `ceil(n·p/100) - 1`
(`Math.max(0, ·)` is the ℕ truncated subtraction), read from the sorted
array; `d` totalizes the out-of-range access (unused for the populations the
service feeds it). -/
def getPercentile {α : Type} (arr : List α) (p : ℕ) (d : α) : α :=
  arr.getD ((arr.length * p + 99) / 100 - 1) d

/-- The spec's percentile definition, literally: `sorted[ceil(n·p/100) - 1]`
with a true rational ceiling and the index clamped to 0. -/
def specPercentile {α : Type} (sorted : List α) (p : ℕ) (d : α) : α :=
  sorted.getD (max 0 (Int.ceil (((sorted.length * p : ℕ) : ℚ) / 100) - 1)).toNat d

/-- Ascending-sorted spend values of the population, absent spends read as 0
(`customers.map(c => c.total_spend || 0).sort((a, b) => a - b)`). -/
def sortedSpends (customers : List AiCustomer) : List ℚ :=
  List.insertionSort (· ≤ ·) (customers.map fun c => c.total_spend.getD 0)

/-- Ascending-sorted visit counts of the population, absent counts read as 0. -/
def sortedVisits (customers : List AiCustomer) : List ℕ :=
  List.insertionSort (· ≤ ·) (customers.map fun c => c.total_visits.getD 0)

/-- The body of the per-customer forEach of `analyzeCustomerPatterns`. -/
def analyzeCustomerStep (now : ℚ) (t : Thresholds) (a : PatternCounters)
    (customer : AiCustomer) : PatternCounters :=
  let spend := customer.total_spend.getD 0
  let visitCount := customer.total_visits.getD 0
  let daysSinceJoined := (now - customer.created_at) / 86400000
  let st := a.spendingTiers
  let st := if spend ≥ t.spendP90 then { st with premium := st.premium + 1 }
    else if spend ≥ t.spendP75 then { st with high := st.high + 1 }
    else if spend ≥ t.spendP50 then { st with medium := st.medium + 1 }
    else { st with low := st.low + 1 }
  let vf := a.visitFrequency
  let vf := if visitCount ≥ t.visitP75 then { vf with frequent := vf.frequent + 1 }
    else if visitCount ≥ t.visitP25 then { vf with regular := vf.regular + 1 }
    else { vf with occasional := vf.occasional + 1 }
  let tn := a.tenure
  let tn := if daysSinceJoined ≤ 30 then { tn with new := tn.new + 1 }
    else if daysSinceJoined ≤ 365 then { tn with established := tn.established + 1 }
    else { tn with longtime := tn.longtime + 1 }
  let commonTags := match customer.tags with
    | some tags => tags.foldl bump a.commonTags
    | none => a.commonTags
  let emailDomains := match customer.email with
    | some email =>
      match emailDomain email with
      | some domain => bump a.emailDomains domain
      | none => a.emailDomains
    | none => a.emailDomains
  let locationPatterns := match customer.address with
    | some address =>
      (((address.splitOn ",").map String.trim).foldl
        (fun m part => if part.length > 2 then bump m part else m) a.locationPatterns)
    | none => a.locationPatterns
  { spendingTiers := st, visitFrequency := vf, tenure := tn,
    commonTags := commonTags, emailDomains := emailDomains,
    locationPatterns := locationPatterns }

/-- `LookalikeAnalyzer.analyzeCustomerPatterns`: percentile thresholds over
the sorted spend/visit arrays, then the forEach tabulation, returned together
with `totalCustomers`. -/
def analyzeCustomerPatterns (now : ℚ) (customers : List AiCustomer) : PatternAnalysis :=
  let spends := sortedSpends customers
  let visits := sortedVisits customers
  let thresholds : Thresholds :=
    { spendP25 := getPercentile spends 25 0
      spendP50 := getPercentile spends 50 0
      spendP75 := getPercentile spends 75 0
      spendP90 := getPercentile spends 90 0
      visitP25 := getPercentile visits 25 0
      visitP75 := getPercentile visits 75 0 }
  let counters := customers.foldl (analyzeCustomerStep now thresholds)
    { spendingTiers := ⟨0, 0, 0, 0⟩, visitFrequency := ⟨0, 0, 0⟩,
      tenure := ⟨0, 0, 0⟩, commonTags := [], emailDomains := [],
      locationPatterns := [] }
  { spendingTiers := counters.spendingTiers
    visitFrequency := counters.visitFrequency
    tenure := counters.tenure
    commonTags := counters.commonTags
    emailDomains := counters.emailDomains
    locationPatterns := counters.locationPatterns
    thresholds := thresholds
    totalCustomers := customers.length }

/-- A condition of a synthesized rule (`id` values are opaque timestamps and
irrelevant to evaluation; they are modelled by a constant string). -/
structure AiCond where
  id : String
  field : String
  operation : String
  value : JValue
deriving DecidableEq, Repr

/-- A synthesized rule tree (one group of conditions). -/
structure AiRules where
  operator : String
  conditions : List AiCond
deriving DecidableEq, Repr

/-- The statistical conditions `generateLookalikeRules` pushes in priority
order, before the fallback check.  JS decimals 1.2, 0.1, 0.2 and 0.15 are
the exact rationals 6/5, 1/10, 1/5 and 3/20. -/
def lookalikeBaseConditions (patterns : PatternAnalysis) : List AiCond :=
  let conditions : List AiCond := []
  let conditions := conditions ++
    (if patterns.thresholds.spendP50 > 0 then
      [⟨"lookalike", "total_spend", "between",
        .pair patterns.thresholds.spendP25 (patterns.thresholds.spendP90 * (6/5))⟩]
     else [])
  let conditions := conditions ++
    (if patterns.thresholds.visitP25 > 0 then
      [⟨"lookalike", "total_visits", "greaterThanOrEqual",
        .num ((max 1 patterns.thresholds.visitP25 : ℕ) : ℚ)⟩]
     else [])
  let conditions := conditions ++
    (if (patterns.spendingTiers.premium : ℚ) > (patterns.totalCustomers : ℚ) * (1/10) then
      [⟨"lookalike", "total_spend", "greaterThan", .num patterns.thresholds.spendP75⟩]
     else [])
  let significantTags :=
    (patterns.commonTags.filter fun tc =>
      (tc.2 : ℚ) > (patterns.totalCustomers : ℚ) * (1/5)).map Prod.fst
  let conditions := conditions ++
    (significantTags.take 2).map
      (fun tag => (⟨"lookalike", "tags", "contains", .str tag⟩ : AiCond))
  let significantDomains :=
    (patterns.emailDomains.filter fun dc =>
      (dc.2 : ℚ) > (patterns.totalCustomers : ℚ) * (3/20)).map Prod.fst
  let conditions := conditions ++
    (significantDomains.take 2).map (fun domain =>
      (⟨"lookalike", "email", "endsWith", .str domain⟩ : AiCond))
  conditions

/-- `LookalikeAnalyzer.generateLookalikeRules`: the statistical conditions
in priority order, then — when fewer than two conditions were produced — the
two broad fallback conditions, wrapped in an OR group. -/
def generateLookalikeRules (patterns : PatternAnalysis) : AiRules :=
  let conditions := lookalikeBaseConditions patterns
  let conditions :=
    if conditions.length < 2 then
      conditions ++
        [⟨"lookalike", "total_spend", "greaterThan",
          .num (max 1000 patterns.thresholds.spendP25)⟩,
         ⟨"lookalike", "total_visits", "greaterThan",
          .num ((max 1 (patterns.thresholds.visitP25 / 2) : ℕ) : ℚ)⟩]
    else conditions
  { operator := "OR", conditions := conditions }

/-- A successful-campaign row (only the id is consumed downstream). -/
structure CampaignRow where
  id : ℕ
deriving DecidableEq, Repr

/-- A communication_logs row joined with its customer (`log.customers` can
be null when the join misses). -/
structure CommRow where
  customers : Option AiCustomer
deriving DecidableEq, Repr

/-- Insight block of the returned lookalike (report data only). -/
structure SourceAnalysisPatterns where
  avgSpend : ℚ
  avgVisits : ℕ
  topTags : List String
  topDomains : List String
deriving DecidableEq, Repr

structure SourceAnalysis where
  sourceCount : ℕ
  patterns : SourceAnalysisPatterns
deriving DecidableEq, Repr

/-- The object `generateLookalikeAudience` resolves with. -/
structure Lookalike where
  rules : AiRules
  audienceSize : ℕ
  sourceAnalysis : Option SourceAnalysis
  confidence : ℕ
  generation_method : String
  errMsg : Option String
deriving DecidableEq, Repr

/-- Database responses for one `generateLookalikeAudience` call, as an
oracle keyed by the query each fetch issues. -/
structure AiEnv where
  /-- completed campaigns with ≥10% success rate (the first query); an error
  here is thrown and caught by the outer catch -/
  campaignsFetch : Except String (List CampaignRow)
  /-- delivered communication_logs joined with customers, keyed by the
  campaign ids of the first query -/
  logsFetch : List ℕ → Except String (List CommRow)
  /-- `segmentData?.rules` argument -/
  segmentRules : Option AiRules
  /-- customers matching the simplified gte filters built from the segment
  rules (fieldname, bound) -/
  segmentCustomersFetch : List (String × ℚ) → Except String (List AiCustomer)
  /-- high-value customers (total_spend ≥ 5000, total_visits ≥ 3, top 50) -/
  highValueFetch : Except String (List AiCustomer)
  /-- count-query for the audience-size estimate, keyed by its two bounds -/
  countFetch : ℚ → ℕ → Except String ℕ
  /-- clock, for `analyzeCustomerPatterns` tenure buckets -/
  now : ℚ

/-- Numeric reading of a condition value (the simplified segment-filter loop
passes `condition.value` straight to a numeric gte filter). -/
def asNum : JValue → ℚ
  | .num q => q
  | _ => 0

/-- The simplified filter loop over `segmentData.rules.conditions`: only
`total_spend greaterThan` and `total_visits greaterThan` conditions become
gte filters. -/
def segmentQueryFilters (rules : AiRules) : List (String × ℚ) :=
  rules.conditions.foldl
    (fun q condition =>
      if condition.field = "total_spend" ∧ condition.operation = "greaterThan" then
        q ++ [("total_spend", asNum condition.value)]
      else if condition.field = "total_visits" ∧ condition.operation = "greaterThan" then
        q ++ [("total_visits", asNum condition.value)]
      else q)
    []

/-- Assembly of `sourceCustomers`: recipients of successful campaigns with
positive spend; else (when that is empty) the segment-context customers;
else the high-value customers.  Fetch errors after the first query leave the
list as it was (`if (!error && data)` guards in the source); the first
query's error is thrown. -/
def assembleSourceCustomers (env : AiEnv) :
    Except String (List CampaignRow × List AiCustomer) := do
  let campaigns ← env.campaignsFetch
  let sourceCustomers : List AiCustomer :=
    if campaigns.length > 0 then
      match env.logsFetch (campaigns.map CampaignRow.id) with
      | .ok successfulCustomers =>
        (successfulCustomers.filterMap CommRow.customers).filter fun customer =>
          match customer.total_spend with
          | some q => decide (q > 0)
          | none => false
      | .error _ => []
    else []
  let sourceCustomers :=
    if sourceCustomers.isEmpty then
      match env.segmentRules with
      | some rules =>
        match env.segmentCustomersFetch (segmentQueryFilters rules) with
        | .ok segmentCustomers => segmentCustomers
        | .error _ => sourceCustomers
      | none => sourceCustomers
    else sourceCustomers
  let sourceCustomers :=
    if sourceCustomers.isEmpty then
      match env.highValueFetch with
      | .ok highValueCustomers => highValueCustomers
      | .error _ => sourceCustomers
    else sourceCustomers
  pure (campaigns, sourceCustomers)

/-- The lookalike object built on the success path (analysis, rules,
estimated size with its own swallowed count error, insights, confidence). -/
def mkLookalike (env : AiEnv) (campaigns : List CampaignRow)
    (sourceCustomers : List AiCustomer) : Lookalike :=
  let patterns := analyzeCustomerPatterns env.now sourceCustomers
  let lookalikeRules := generateLookalikeRules patterns
  let estimatedSize :=
    match env.countFetch patterns.thresholds.spendP25
        (max 1 patterns.thresholds.visitP25) with
    | .ok n => n
    | .error _ => 0
  { rules := lookalikeRules
    audienceSize := estimatedSize
    sourceAnalysis := some
      { sourceCount := sourceCustomers.length
        patterns :=
          { avgSpend := patterns.thresholds.spendP50
            avgVisits := patterns.thresholds.visitP25
            topTags :=
              ((List.insertionSort (fun a b => b.2 ≤ a.2) patterns.commonTags).take 3).map
                Prod.fst
            topDomains := (patterns.emailDomains.map Prod.fst).take 2 } }
    confidence := min 95 (60 + sourceCustomers.length * 2)
    generation_method :=
      if campaigns.length > 0 then "successful_campaigns" else "high_value_analysis"
    errMsg := none }

/-- The try block of `generateLookalikeAudience`: assemble the reference
population, throw when it is empty, otherwise build the lookalike. -/
def bodyLookalike (env : AiEnv) : Except String Lookalike := do
  let r ← assembleSourceCustomers env
  if r.2.length = 0 then
    .error "No source customers found for lookalike audience generation"
  else
    pure (mkLookalike env r.1 r.2)

/-- The fixed fallback rule returned by the catch arm:
`total_spend > 2000 OR total_visits > 2`. -/
def fallbackRules : AiRules :=
  { operator := "OR"
    conditions :=
      [⟨"fallback_1", "total_spend", "greaterThan", .num 2000⟩,
       ⟨"fallback_2", "total_visits", "greaterThan", .num 2⟩] }

/-- The catch arm's return value: fixed rule, confidence 30, no analysis. -/
def fallbackLookalike (e : String) : Lookalike :=
  { rules := fallbackRules
    audienceSize := 0
    sourceAnalysis := none
    confidence := 30
    generation_method := "fallback"
    errMsg := some e }

/-- `generateLookalikeAudience`: the try/catch — every error of the body
becomes the fallback object, so the function always returns a lookalike. -/
def generateLookalikeAudience (env : AiEnv) : Lookalike :=
  match bodyLookalike env with
  | .ok lookalike => lookalike
  | .error e => fallbackLookalike e

/-! ### Theorems about the lookalike synthesizer -/

/-- The rational ceiling of `m/100` is the rounded-up natural division. -/
theorem natCeilDiv_hundred (m : ℕ) :
    Int.ceil ((m : ℚ) / 100) = (((m + 99) / 100 : ℕ) : ℤ) := by
  generalize hz : (m + 99) / 100 = z
  have h1 : z * 100 ≤ m + 99 := by rw [← hz]; exact Nat.div_mul_le_self _ _
  have h2 : m + 99 < (z + 1) * 100 := by
    rw [← hz]; exact (Nat.div_lt_iff_lt_mul (by norm_num)).mp (Nat.lt_succ_self _)
  rw [Int.ceil_eq_iff]
  constructor
  · rw [lt_div_iff₀ (by norm_num : (0:ℚ) < 100)]
    have h1q : (z : ℚ) * 100 ≤ (m : ℚ) + 99 := by exact_mod_cast h1
    push_cast
    linarith
  · rw [div_le_iff₀ (by norm_num : (0:ℚ) < 100)]
    have h3 : m ≤ z * 100 := by omega
    exact_mod_cast h3

/-- The source's integer index formula agrees with the spec's clamped
rational-ceiling nearest-rank definition. -/
theorem getPercentile_eq_specPercentile {α : Type} (arr : List α) (p : ℕ) (d : α) :
    getPercentile arr p d = specPercentile arr p d := by
  unfold getPercentile specPercentile
  rw [natCeilDiv_hundred]
  congr 1
  omega

/-- C5: for a non-empty reference population the analyzer's thresholds are
exactly `sorted[ceil(n·p/100) - 1]` (index clamped to 0) over the
ascending-sorted spend values for p = 25, 50, 75, 90 and the
ascending-sorted visit counts for p = 25, 75, with missing values read as 0;
the consulted arrays are indeed sorted ascending. -/
theorem analyzeCustomerPatterns_percentile_thresholds
    (now : ℚ) (customers : List AiCustomer) (_h : customers ≠ []) :
    ((analyzeCustomerPatterns now customers).thresholds.spendP25 =
        specPercentile (sortedSpends customers) 25 0 ∧
      (analyzeCustomerPatterns now customers).thresholds.spendP50 =
        specPercentile (sortedSpends customers) 50 0 ∧
      (analyzeCustomerPatterns now customers).thresholds.spendP75 =
        specPercentile (sortedSpends customers) 75 0 ∧
      (analyzeCustomerPatterns now customers).thresholds.spendP90 =
        specPercentile (sortedSpends customers) 90 0 ∧
      (analyzeCustomerPatterns now customers).thresholds.visitP25 =
        specPercentile (sortedVisits customers) 25 0 ∧
      (analyzeCustomerPatterns now customers).thresholds.visitP75 =
        specPercentile (sortedVisits customers) 75 0) ∧
    (sortedSpends customers).Sorted (· ≤ ·) ∧
    (sortedVisits customers).Sorted (· ≤ ·) := by
  refine ⟨⟨?_, ?_, ?_, ?_, ?_, ?_⟩, ?_, ?_⟩
  · simp only [analyzeCustomerPatterns]; exact getPercentile_eq_specPercentile _ _ _
  · simp only [analyzeCustomerPatterns]; exact getPercentile_eq_specPercentile _ _ _
  · simp only [analyzeCustomerPatterns]; exact getPercentile_eq_specPercentile _ _ _
  · simp only [analyzeCustomerPatterns]; exact getPercentile_eq_specPercentile _ _ _
  · simp only [analyzeCustomerPatterns]; exact getPercentile_eq_specPercentile _ _ _
  · simp only [analyzeCustomerPatterns]; exact getPercentile_eq_specPercentile _ _ _
  · simp only [sortedSpends]; exact List.sorted_insertionSort _ _
  · simp only [sortedVisits]; exact List.sorted_insertionSort _ _

/-- Reference customer with no signal at all (spend 0, visits 0, no tags, no
email): used by concrete instantiations. -/
def zeroCustomer : AiCustomer :=
  { email := none
    address := none
    total_spend := some 0
    total_visits := some 0
    tags := none
    created_at := 0 }

/-- C5 (witness): the threshold/percentile agreement instantiated on the
one-customer population `[zeroCustomer]`. -/
theorem analyzeCustomerPatterns_percentile_thresholds_witness :
    ((analyzeCustomerPatterns 0 [zeroCustomer]).thresholds.spendP25 =
        specPercentile (sortedSpends [zeroCustomer]) 25 0 ∧
      (analyzeCustomerPatterns 0 [zeroCustomer]).thresholds.spendP50 =
        specPercentile (sortedSpends [zeroCustomer]) 50 0 ∧
      (analyzeCustomerPatterns 0 [zeroCustomer]).thresholds.spendP75 =
        specPercentile (sortedSpends [zeroCustomer]) 75 0 ∧
      (analyzeCustomerPatterns 0 [zeroCustomer]).thresholds.spendP90 =
        specPercentile (sortedSpends [zeroCustomer]) 90 0 ∧
      (analyzeCustomerPatterns 0 [zeroCustomer]).thresholds.visitP25 =
        specPercentile (sortedVisits [zeroCustomer]) 25 0 ∧
      (analyzeCustomerPatterns 0 [zeroCustomer]).thresholds.visitP75 =
        specPercentile (sortedVisits [zeroCustomer]) 75 0) ∧
    (sortedSpends [zeroCustomer]).Sorted (· ≤ ·) ∧
    (sortedVisits [zeroCustomer]).Sorted (· ≤ ·) :=
  analyzeCustomerPatterns_percentile_thresholds 0 [zeroCustomer] (by decide)

/-- Padding a list to length two can never leave it shorter than two. -/
theorem length_pad_two {α : Type} (l : List α) (a b : α) :
    2 ≤ (if l.length < 2 then l ++ [a, b] else l).length := by
  split
  · simp only [List.length_append, List.length_cons, List.length_nil]
    omega
  · omega

/-- Padding a list to length two preserves membership. -/
theorem mem_pad_two {α : Type} {l : List α} {x : α} (a b : α) (hx : x ∈ l) :
    x ∈ (if l.length < 2 then l ++ [a, b] else l) := by
  split
  · exact List.mem_append_left _ hx
  · exact hx

/-- Shape invariant of the synthesized rule: operator OR and, thanks to the
broad fallback conditions, never fewer than two conditions. -/
theorem generateLookalikeRules_shape (patterns : PatternAnalysis) :
    (generateLookalikeRules patterns).operator = "OR" ∧
    2 ≤ (generateLookalikeRules patterns).conditions.length := by
  refine ⟨rfl, ?_⟩
  simp only [generateLookalikeRules]
  exact length_pad_two _ _ _

/-- C10: from every non-empty reference population the synthesized rule has
operator OR and at least two conditions (the fallbacks are appended whenever
fewer than two statistical conditions apply). -/
theorem generateLookalikeRules_never_degenerate
    (now : ℚ) (customers : List AiCustomer) (_h : customers ≠ []) :
    (generateLookalikeRules (analyzeCustomerPatterns now customers)).operator = "OR" ∧
    2 ≤ (generateLookalikeRules (analyzeCustomerPatterns now customers)).conditions.length :=
  generateLookalikeRules_shape _

/-- C10 (witness): the shape invariant instantiated on `[zeroCustomer]`. -/
theorem generateLookalikeRules_never_degenerate_witness :
    (generateLookalikeRules (analyzeCustomerPatterns 0 [zeroCustomer])).operator = "OR" ∧
    2 ≤ (generateLookalikeRules (analyzeCustomerPatterns 0 [zeroCustomer])).conditions.length :=
  generateLookalikeRules_never_degenerate 0 [zeroCustomer] (by decide)

/-- C7 (counterexample): the non-empty population `[zeroCustomer]` has
25th-percentile visit count 0, so the guard `visitP25 > 0` fails and the
synthesized rule contains NO `greaterThanOrEqual` condition on
`total_visits` at all — the claim's unconditional containment is false. -/
theorem generateLookalikeRules_no_visit_condition_cex :
    ((generateLookalikeRules (analyzeCustomerPatterns 0 [zeroCustomer])).conditions.filter
      (fun c => decide (c.field = "total_visits") &&
                decide (c.operation = "greaterThanOrEqual"))) = [] := by
  have h50 : (analyzeCustomerPatterns 0 [zeroCustomer]).thresholds.spendP50 = 0 := by decide
  have h25 : (analyzeCustomerPatterns 0 [zeroCustomer]).thresholds.visitP25 = 0 := by decide
  have hprem : (analyzeCustomerPatterns 0 [zeroCustomer]).spendingTiers.premium = 1 := by decide
  have htags : (analyzeCustomerPatterns 0 [zeroCustomer]).commonTags = [] := by decide
  have hdom : (analyzeCustomerPatterns 0 [zeroCustomer]).emailDomains = [] := by decide
  have htot : (analyzeCustomerPatterns 0 [zeroCustomer]).totalCustomers = 1 := by decide
  simp only [generateLookalikeRules, lookalikeBaseConditions,
    h50, h25, hprem, htags, hdom, htot]
  norm_num
  decide

/-- Whenever the population's 25th-percentile visit count is positive, the
visit condition is pushed and survives all later appends. -/
theorem generateLookalikeRules_visit_condition_of_pos (patterns : PatternAnalysis)
    (hg : 0 < patterns.thresholds.visitP25) :
    (⟨"lookalike", "total_visits", "greaterThanOrEqual",
      .num ((max 1 patterns.thresholds.visitP25 : ℕ) : ℚ)⟩ : AiCond) ∈
      (generateLookalikeRules patterns).conditions := by
  simp only [generateLookalikeRules]
  refine mem_pad_two _ _ ?_
  simp only [lookalikeBaseConditions]
  simp [hg]

/-- C7 (amended): for every non-empty reference population the synthesized
rule has top-level operator OR and — provided the population's
25th-percentile visit count is positive, which is the source's guard on that
condition — contains a `greaterThanOrEqual` condition on `total_visits`
whose value is `max 1 p25_visits`. -/
theorem generateLookalikeRules_visit_condition
    (now : ℚ) (customers : List AiCustomer) (_h : customers ≠ [])
    (hg : 0 < (analyzeCustomerPatterns now customers).thresholds.visitP25) :
    (generateLookalikeRules (analyzeCustomerPatterns now customers)).operator = "OR" ∧
    (⟨"lookalike", "total_visits", "greaterThanOrEqual",
      .num ((max 1 (analyzeCustomerPatterns now customers).thresholds.visitP25 : ℕ) : ℚ)⟩ : AiCond) ∈
      (generateLookalikeRules (analyzeCustomerPatterns now customers)).conditions :=
  ⟨rfl, generateLookalikeRules_visit_condition_of_pos _ hg⟩

/-- A reference customer with five visits, making `visitP25` positive. -/
def frequentCustomer : AiCustomer :=
  { email := none
    address := none
    total_spend := some 100
    total_visits := some 5
    tags := none
    created_at := 0 }

/-- C7 (witness): the amended containment instantiated on
`[frequentCustomer]`, whose 25th-percentile visit count is 5. -/
theorem generateLookalikeRules_visit_condition_witness :
    (generateLookalikeRules (analyzeCustomerPatterns 0 [frequentCustomer])).operator = "OR" ∧
    (⟨"lookalike", "total_visits", "greaterThanOrEqual",
      .num ((max 1 (analyzeCustomerPatterns 0 [frequentCustomer]).thresholds.visitP25 : ℕ) : ℚ)⟩ : AiCond) ∈
      (generateLookalikeRules (analyzeCustomerPatterns 0 [frequentCustomer])).conditions :=
  generateLookalikeRules_visit_condition 0 [frequentCustomer] (by decide) (by decide)

/-- C4: any error inside the body of `generateLookalikeAudience` — in
particular the one thrown when no reference population can be assembled
from successful campaigns, segment context or high-value customers — is
caught and turned into the fixed fallback lookalike: rule
`total_spend > 2000 OR total_visits > 2`, confidence 30.  The function
itself is total and never raises to its caller. -/
theorem generateLookalikeAudience_fallback (env : AiEnv) :
    (∀ e, bodyLookalike env = .error e →
      generateLookalikeAudience env = fallbackLookalike e) ∧
    (env.campaignsFetch = .ok [] → env.segmentRules = none →
     env.highValueFetch = .ok [] →
      generateLookalikeAudience env =
        fallbackLookalike "No source customers found for lookalike audience generation" ∧
      (generateLookalikeAudience env).confidence = 30 ∧
      (generateLookalikeAudience env).rules = fallbackRules) := by
  constructor
  · intro e he
    simp [generateLookalikeAudience, he]
  · intro h1 h2 h3
    have hassemble : assembleSourceCustomers env = .ok ([], []) := by
      simp [assembleSourceCustomers, h1, h2, h3, Bind.bind, Except.bind,
        pure, Except.pure]
    have hbody : bodyLookalike env =
        .error "No source customers found for lookalike audience generation" := by
      simp [bodyLookalike, hassemble, Bind.bind, Except.bind]
    refine ⟨?_, ?_, ?_⟩ <;> simp [generateLookalikeAudience, hbody, fallbackLookalike]

/-- Environment with no successful campaigns, no segment context and no
high-value customers. -/
def emptyAiEnv : AiEnv :=
  { campaignsFetch := .ok []
    logsFetch := fun _ => .ok []
    segmentRules := none
    segmentCustomersFetch := fun _ => .ok []
    highValueFetch := .ok []
    countFetch := fun _ _ => .ok 0
    now := 0 }

/-- C4 (witness): with every source empty, the result is exactly the fixed
fallback lookalike. -/
theorem generateLookalikeAudience_fallback_witness :
    generateLookalikeAudience emptyAiEnv =
      fallbackLookalike "No source customers found for lookalike audience generation" :=
  ((generateLookalikeAudience_fallback emptyAiEnv).2 rfl rfl rfl).1

/-- C6: on every successful synthesis (a non-empty assembled reference
population), the returned confidence is `min 95 (60 + 2·referenceCount)`. -/
theorem generateLookalikeAudience_confidence
    (env : AiEnv) (campaigns : List CampaignRow) (sourceCustomers : List AiCustomer)
    (hassemble : assembleSourceCustomers env = .ok (campaigns, sourceCustomers))
    (hne : sourceCustomers ≠ []) :
    (generateLookalikeAudience env).confidence =
      min 95 (60 + sourceCustomers.length * 2) := by
  have hlen : sourceCustomers.length ≠ 0 := by
    rw [Ne, List.length_eq_zero]; exact hne
  simp [generateLookalikeAudience, bodyLookalike, hassemble, hlen, mkLookalike,
    Bind.bind, Except.bind, pure, Except.pure]

/-- Environment whose only source population is one high-value customer. -/
def highValueAiEnv : AiEnv :=
  { campaignsFetch := .ok []
    logsFetch := fun _ => .ok []
    segmentRules := none
    segmentCustomersFetch := fun _ => .ok []
    highValueFetch := .ok [frequentCustomer]
    countFetch := fun _ _ => .error "count failed"
    now := 0 }

/-- C6 (witness): one reference customer gives confidence
`min 95 (60 + 2)`. -/
theorem generateLookalikeAudience_confidence_witness :
    (generateLookalikeAudience highValueAiEnv).confidence =
      min 95 (60 + ([frequentCustomer] : List AiCustomer).length * 2) :=
  generateLookalikeAudience_confidence highValueAiEnv [] [frequentCustomer]
    (by rfl) (by decide)

end Crm
